import Mathlib

/-!
Shallow embedding of the I3G4250D gyroscope driver (src/I3G4250D.c and
src/I3G4250D.h) and verification of its specification.

Modelling conventions:
* C `float` arithmetic is modelled over `ℚ`.  Every constant the driver
  manipulates (8.75, 17.50, 70, 2000, 0.0, the calibration examples) is
  exactly representable in binary floating point, so the rational model is
  exact on all values the theorems mention.
* Machine integers are `Nat`, with explicit masks and `% 2 ^ w` where the C
  code wraps; `int16_t` results are `Int` produced by `toInt16`.
* The SPI bus is a parameter of each operation: a read transaction is a
  function from the register address and staging-buffer index to the byte
  the bus delivered there.  Bytes range over 0..255.
* The driver's static module state (sensitivity, per-axis bias and scale)
  is passed explicitly as a `DriverState`.
-/

/-- Modulus of the `uint32_t` HAL tick counter. -/
def tickMod : Nat := 4294967296

/-- Two's-complement reinterpretation of a bit pattern as an `int16_t`, as
performed by the C assignment of `(spiBuffer[1] << 8) + spiBuffer[0]` to an
`int16_t` struct field. -/
def toInt16 (n : Nat) : Int :=
  if n % 65536 < 32768 then (n % 65536 : Int) else (n % 65536 : Int) - 65536

/-- Register addresses used by the driver (I3G4250D.h lines 22-37). -/
def I3G4250D_CTRL_REG1 : Nat := 0x20

/-- CTRL_REG2 address (I3G4250D.h line 25). -/
def I3G4250D_CTRL_REG2 : Nat := 0x21

/-- CTRL_REG4 address (I3G4250D.h line 27). -/
def I3G4250D_CTRL_REG4 : Nat := 0x23

/-- Status register address (I3G4250D.h line 30). -/
def I3G4250D_STATUS_ADDR : Nat := 0x27

/-- X axis low byte address (I3G4250D.h line 32). -/
def I3G4250D_OUT_X_L_ADDR : Nat := 0x28

/-- Y axis low byte address (I3G4250D.h line 34). -/
def I3G4250D_OUT_Y_L_ADDR : Nat := 0x2A

/-- Z axis low byte address (I3G4250D.h line 36). -/
def I3G4250D_OUT_Z_L_ADDR : Nat := 0x2C

/-- Full-scale selection 245 DPS (I3G4250D.h line 78). -/
def I3G4250D_SCALE_245 : Nat := 0x00

/-- Full-scale selection 500 DPS (I3G4250D.h line 79). -/
def I3G4250D_SCALE_500 : Nat := 0x40

/-- Full-scale selection 2000 DPS (I3G4250D.h line 80). -/
def I3G4250D_SCALE_2000 : Nat := 0x80

/-- Alternate full-scale selection 2000 DPS (I3G4250D.h line 81). -/
def I3G4250D_SCALE_2000_2 : Nat := 0xC0

/-- Sensitivity for 245 DPS (I3G4250D.h line 93; name keeps the source's
spelling). -/
def I3G4250D_SENSITIVTY_8_75 : ℚ := 8.75

/-- Sensitivity for 500 DPS (I3G4250D.h line 94). -/
def I3G4250D_SENSITIVTY_17_50 : ℚ := 17.50

/-- Sensitivity for 2000 DPS (I3G4250D.h line 95). -/
def I3G4250D_SENSITIVTY_70 : ℚ := 70

/-- The driver's static module state: the globals `I3G4250D_Sensitivity`,
`X_Bias` .. `Z_Bias`, `X_Scale` .. `Z_Scale` of I3G4250D.c lines 28-38. -/
structure DriverState where
  I3G4250D_Sensitivity : ℚ
  X_Bias : ℚ
  Y_Bias : ℚ
  Z_Bias : ℚ
  X_Scale : ℚ
  Y_Scale : ℚ
  Z_Scale : ℚ
deriving DecidableEq

/-- The state of the globals at program start (I3G4250D.c lines 28-38):
sensitivity is statically initialised to `I3G4250D_SENSITIVTY_17_50`, every
bias and scale to `0.0f`. -/
def initialDriverState : DriverState :=
  { I3G4250D_Sensitivity := I3G4250D_SENSITIVTY_17_50
    X_Bias := 0, Y_Bias := 0, Z_Bias := 0
    X_Scale := 0, Y_Scale := 0, Z_Scale := 0 }

/-- The copy-out loop of the driver's SPI read (I3G4250D.c lines 64-67):
`for (i = 0; i < n; i++) readData[i] = spiBuffer[i];`, here iterated from
the top index down; `n` is the already-masked bound. -/
def readIOCopyLoop (spiBuffer readData : Nat → Nat) : Nat → Nat → Nat
  | 0 => readData
  | n + 1 => fun i => if i = n then spiBuffer n else readIOCopyLoop spiBuffer readData n i

/-- Caller-visible effect of the driver's SPI read `I3G4250D_ReadIO`
(I3G4250D.c lines 54-68): the bus receives `size` bytes into the internal
staging buffer (`spiBuffer`, given here as the bytes the bus delivered),
after which the copy loop writes exactly `size & 0x3` of them into the
caller buffer `readData`; the remaining caller-buffer cells keep their
previous contents. -/
def I3G4250D_ReadIOCopy (spiBuffer readData : Nat → Nat) (size : Nat) : Nat → Nat :=
  readIOCopyLoop spiBuffer readData (size &&& 0x3)

/-- Raw sample struct `I3G4250D_DataRaw` (I3G4250D.h lines 114-119). -/
structure I3G4250D_DataRaw where
  x : Int
  y : Int
  z : Int
deriving DecidableEq

/-- Scaled sample struct `I3G4250D_DataScaled` (I3G4250D.h lines 121-126). -/
structure I3G4250D_DataScaled where
  x : ℚ
  y : ℚ
  z : ℚ
deriving DecidableEq

/-- Configuration struct `I3G4250D_InitTypeDef` (I3G4250D.h lines 104-111). -/
structure I3G4250D_InitTypeDef where
  ENABLED_AXIS : Nat
  ODR_BW_PRESET : Nat
  HPF_MODE : Nat
  HPCF_MODE : Nat
  FULLSCALE_SELECTION : Nat
deriving DecidableEq

/-- `I3G4250D_GetRawData` (I3G4250D.c lines 120-138), statement by
statement.  `bus a i` is byte `i` delivered by the 2-byte read transaction
at register address `a`; `spiBuffer0` is the uninitialised content of the
local 2-byte staging array and `tempRawData0` the uninitialised content of
the local result struct.  Each read runs through the `I3G4250D_ReadIOCopy`
layer with size 2.  Note the source assigns all three assembled values to
field `x` (lines 127, 131, 135). -/
def I3G4250D_GetRawData (bus : Nat → Nat → Nat) (spiBuffer0 : Nat → Nat)
    (tempRawData0 : I3G4250D_DataRaw) : I3G4250D_DataRaw :=
  let spiBufX := I3G4250D_ReadIOCopy (bus I3G4250D_OUT_X_L_ADDR) spiBuffer0 2
  let t1 := { tempRawData0 with x := toInt16 ((spiBufX 1 <<< 8) + spiBufX 0) }
  let spiBufY := I3G4250D_ReadIOCopy (bus I3G4250D_OUT_Y_L_ADDR) spiBufX 2
  let t2 := { t1 with x := toInt16 ((spiBufY 1 <<< 8) + spiBufY 0) }
  let spiBufZ := I3G4250D_ReadIOCopy (bus I3G4250D_OUT_Z_L_ADDR) spiBufY 2
  let t3 := { t2 with x := toInt16 ((spiBufZ 1 <<< 8) + spiBufZ 0) }
  t3

/-- `I3G4250D_GetScaledData` (I3G4250D.c lines 140-152), with the raw
sample it obtained from `I3G4250D_GetRawData` passed in as `tempRawData`.
Note the source multiplies `tempRawData.x` into all three output fields
(lines 147-149). -/
def I3G4250D_GetScaledData (st : DriverState) (tempRawData : I3G4250D_DataRaw) :
    I3G4250D_DataScaled :=
  { x := (tempRawData.x : ℚ) * st.I3G4250D_Sensitivity * st.X_Scale + 0 - st.X_Bias
    y := (tempRawData.x : ℚ) * st.I3G4250D_Sensitivity * st.Y_Scale + 0 - st.Y_Bias
    z := (tempRawData.x : ℚ) * st.I3G4250D_Sensitivity * st.Z_Scale + 0 - st.Z_Bias }

/-- `I3G4250D_Init` (I3G4250D.c lines 70-118): returns the list of
(register, byte) writes it issues, in order, and the updated driver state.
The byte values are built by the same sequence of `|=` steps as the
source; the `switch` on `FULLSCALE_SELECTION` becomes the nested `if`. -/
def I3G4250D_Init (st : DriverState) (accelerometerInit : I3G4250D_InitTypeDef) :
    List (Nat × Nat) × DriverState :=
  let spiData1 := 0 ||| (accelerometerInit.ENABLED_AXIS &&& 0x0F)
  let spiData1 := spiData1 ||| (accelerometerInit.ODR_BW_PRESET &&& 0xF0)
  let spiData2 := 0 ||| (accelerometerInit.HPF_MODE &&& 0x30)
  let spiData2 := spiData2 ||| (accelerometerInit.HPCF_MODE &&& 0x0F)
  let spiData4 := 0 ||| (accelerometerInit.FULLSCALE_SELECTION &&& 0x30)
  let spiData4 := spiData4 ||| (0x00 &&& 0x00)
  let st1 :=
    if accelerometerInit.FULLSCALE_SELECTION = I3G4250D_SCALE_245 then
      { st with I3G4250D_Sensitivity := I3G4250D_SENSITIVTY_8_75 }
    else if accelerometerInit.FULLSCALE_SELECTION = I3G4250D_SCALE_500 then
      { st with I3G4250D_Sensitivity := I3G4250D_SENSITIVTY_17_50 }
    else if accelerometerInit.FULLSCALE_SELECTION = I3G4250D_SCALE_2000 then
      { st with I3G4250D_Sensitivity := I3G4250D_SENSITIVTY_70 }
    else if accelerometerInit.FULLSCALE_SELECTION = I3G4250D_SCALE_2000_2 then
      { st with I3G4250D_Sensitivity := I3G4250D_SENSITIVTY_70 }
    else st
  ([(I3G4250D_CTRL_REG1, spiData1), (I3G4250D_CTRL_REG2, spiData2),
    (I3G4250D_CTRL_REG4, spiData4)], st1)

/-- The HAL tick counter value observed at the `n`-th poll of the
data-ready loop, for a loop started when the counter read `T0`: the model
assumes the counter advances by one millisecond per loop iteration and
wraps at `2 ^ 32` as a `uint32_t` does. -/
def HAL_GetTickAt (T0 n : Nat) : Nat := (T0 + n) % tickMod

/-- The `uint8_t startTick = HAL_GetTick();` of I3G4250D.c line 157: the
32-bit tick truncated to 8 bits. -/
def startTick (T0 : Nat) : Nat := (T0 % tickMod) % 256

/-- The elapsed-time expression `HAL_GetTick() - startTick` of I3G4250D.c
line 161, evaluated at the `n`-th poll: `uint32_t` subtraction after the
`uint8_t` operand is promoted, i.e. subtraction modulo `2 ^ 32`. -/
def elapsedComputed (T0 n : Nat) : Nat :=
  (HAL_GetTickAt T0 n + tickMod - startTick T0) % tickMod

/-- The do-while polling loop of `I3G4250D_DataReady` (I3G4250D.c lines
158-167).  `status n` is the status byte the `n`-th `I3G4250D_ReadIO` poll
latched.  The loop body re-polls while `(Acc_status & 0x07) == 0` and the
computed elapsed time is below `msTimeOut`; on exit the function returns
whether the low three bits of the last-read status are nonzero.  `fuel`
bounds the number of polls still allowed; `none` means the bound was hit
while the loop wanted to continue. -/
def I3G4250D_DataReady_loop (status : Nat → Nat) (T0 msTimeOut : Nat) :
    Nat → Nat → Option Bool
  | 0, _ => none
  | fuel + 1, n =>
    if status n &&& 0x07 = 0 ∧ elapsedComputed T0 n < msTimeOut then
      I3G4250D_DataReady_loop status T0 msTimeOut fuel (n + 1)
    else
      some (status n &&& 0x07 != 0)

/-- `I3G4250D_DataReady` (I3G4250D.c lines 154-168), run with fuel
`msTimeOut + 1`: the termination theorem below shows this many polls
always suffice for the loop to exit on its own. -/
def I3G4250D_DataReady (status : Nat → Nat) (T0 msTimeOut : Nat) : Option Bool :=
  I3G4250D_DataReady_loop status T0 msTimeOut (msTimeOut + 1) 0

/-- `I3G4250D_X_Calibrate` (I3G4250D.c lines 170-174). -/
def I3G4250D_X_Calibrate (st : DriverState) (x_min x_max : ℚ) : DriverState :=
  { st with X_Bias := (x_max + x_min) / 2, X_Scale := (2 * 1000) / (x_max - x_min) }

/-- `I3G4250D_Y_Calibrate` (I3G4250D.c lines 176-180). -/
def I3G4250D_Y_Calibrate (st : DriverState) (y_min y_max : ℚ) : DriverState :=
  { st with Y_Bias := (y_max + y_min) / 2, Y_Scale := (2 * 1000) / (y_max - y_min) }

/-- `I3G4250D_Z_Calibrate` (I3G4250D.c lines 182-186). -/
def I3G4250D_Z_Calibrate (st : DriverState) (z_min z_max : ℚ) : DriverState :=
  { st with Z_Bias := (z_max + z_min) / 2, Z_Scale := (2 * 1000) / (z_max - z_min) }

/-- Concrete bus for exercising `I3G4250D_GetRawData`: the X-axis read
delivers bytes (low 0x01, high 0x00), the Y-axis read (low 0x34, high
0x12), the Z-axis read (low 0x02, high 0x00). -/
def busRaw : Nat → Nat → Nat := fun a i =>
  if a = I3G4250D_OUT_X_L_ADDR then (if i = 0 then 0x01 else 0x00)
  else if a = I3G4250D_OUT_Y_L_ADDR then (if i = 0 then 0x34 else 0x12)
  else if i = 0 then 0x02 else 0x00

/-- Concrete driver state for exercising `I3G4250D_GetScaledData`: the
start-up state with X and Y scale set to 2 (as produced by calibrating
those axes over min -500, max 500); sensitivity is 17.50, biases 0. -/
def stScaled : DriverState :=
  { initialDriverState with X_Scale := 2, Y_Scale := 2 }

/-- Concrete staging-buffer bytes for exercising `I3G4250D_ReadIOCopy`. -/
def spiBytes : Nat → Nat := fun i => i + 10

/-- Concrete prior caller-buffer bytes for exercising
`I3G4250D_ReadIOCopy`. -/
def callerBytes : Nat → Nat := fun i => i + 100

theorem readIOCopyLoop_lt (spiBuffer readData : Nat → Nat) :
    ∀ n i, i < n → readIOCopyLoop spiBuffer readData n i = spiBuffer i := by
  intro n
  induction n with
  | zero => intro i h; exact absurd h (Nat.not_lt_zero i)
  | succ n ih =>
    intro i h
    show (if i = n then spiBuffer n else readIOCopyLoop spiBuffer readData n i) = spiBuffer i
    by_cases hi : i = n
    · rw [if_pos hi, hi]
    · rw [if_neg hi]
      exact ih i (by omega)

theorem readIOCopyLoop_ge (spiBuffer readData : Nat → Nat) :
    ∀ n i, n ≤ i → readIOCopyLoop spiBuffer readData n i = readData i := by
  intro n
  induction n with
  | zero => intro i _; rfl
  | succ n ih =>
    intro i h
    show (if i = n then spiBuffer n else readIOCopyLoop spiBuffer readData n i) = readData i
    rw [if_neg (by omega)]
    exact ih i (by omega)

/-- C4: for every requested size, the SPI read receives `size` bytes into
the staging buffer and then copies exactly `size & 3` of them into the
caller's buffer — so at most 3 bytes are copied regardless of the request
— and leaves every caller-buffer byte at index `size & 3` and beyond
unwritten. -/
theorem C4_readIOCopy_bound (spiBuffer readData : Nat → Nat) (size : Nat) :
    (∀ i, i < size &&& 0x3 → I3G4250D_ReadIOCopy spiBuffer readData size i = spiBuffer i) ∧
    (∀ i, size &&& 0x3 ≤ i → I3G4250D_ReadIOCopy spiBuffer readData size i = readData i) ∧
    size &&& 0x3 ≤ 3 := by
  refine ⟨fun i hi => readIOCopyLoop_lt spiBuffer readData _ i hi,
    fun i hi => readIOCopyLoop_ge spiBuffer readData _ i hi, Nat.and_le_right⟩

theorem C4_readIOCopy_bound_witness :
    (0 < 5 &&& 0x3 ∧ I3G4250D_ReadIOCopy spiBytes callerBytes 5 0 = spiBytes 0) ∧
    (5 &&& 0x3 ≤ 1 ∧ I3G4250D_ReadIOCopy spiBytes callerBytes 5 1 = callerBytes 1) ∧
    5 &&& 0x3 ≤ 3 :=
  ⟨⟨by decide, (C4_readIOCopy_bound spiBytes callerBytes 5).1 0 (by decide)⟩,
   ⟨by decide, (C4_readIOCopy_bound spiBytes callerBytes 5).2.1 1 (by decide)⟩,
   (C4_readIOCopy_bound spiBytes callerBytes 5).2.2⟩

/-- C1 counter-evidence: with the Y-axis read delivering low 0x34, high
0x12 (and zeroed garbage in the uninitialised locals), the returned
sample's `y` field is not 0x1234 = 4660 — it keeps the garbage value 0 —
and the `x` field holds the Z-axis assembly 0x0002, not the X-axis
assembly 0x0001: every read is stored into field `x`. -/
theorem C1_getRawData_bug :
    (I3G4250D_GetRawData busRaw (fun _ => 0) ⟨0, 0, 0⟩).y ≠ 4660 ∧
    (I3G4250D_GetRawData busRaw (fun _ => 0) ⟨0, 0, 0⟩).y = 0 ∧
    (I3G4250D_GetRawData busRaw (fun _ => 0) ⟨0, 0, 0⟩).z = 0 ∧
    (I3G4250D_GetRawData busRaw (fun _ => 0) ⟨0, 0, 0⟩).x = 2 := by
  refine ⟨by decide, by decide, by decide, by decide⟩

/-- C2 counter-evidence: in a state with sensitivity 17.50, Y scale 2 and
Y bias 0, a raw sample whose own `y` value is 100 (and `x` value 0) is
scaled to `y = 0`, not the 100 * 17.50 * 2.0 - 0 = 3500.0 the claim
requires: the `y` output is computed from the raw `x` value, as the third
conjunct (raw `x` = 100 forcing `y` output 3500) shows. -/
theorem C2_getScaledData_bug :
    (I3G4250D_GetScaledData stScaled ⟨0, 100, 0⟩).y = 0 ∧
    (I3G4250D_GetScaledData stScaled ⟨0, 100, 0⟩).y ≠ 3500 ∧
    (I3G4250D_GetScaledData stScaled ⟨100, 100, 100⟩).y = 3500 := by
  refine ⟨?_, ?_, ?_⟩ <;>
    norm_num [I3G4250D_GetScaledData, stScaled, initialDriverState, I3G4250D_SENSITIVTY_17_50]

/-- C5: for each of the four valid full-scale selections 245, 500, 2000
and 2000-alt, `I3G4250D_Init` sets the active sensitivity to exactly 8.75,
17.50, 70 and 70 respectively, from any prior state. -/
theorem C5_init_sensitivity (st : DriverState) (a o hp hc : Nat) :
    (I3G4250D_Init st ⟨a, o, hp, hc, I3G4250D_SCALE_245⟩).2.I3G4250D_Sensitivity = 8.75 ∧
    (I3G4250D_Init st ⟨a, o, hp, hc, I3G4250D_SCALE_500⟩).2.I3G4250D_Sensitivity = 17.50 ∧
    (I3G4250D_Init st ⟨a, o, hp, hc, I3G4250D_SCALE_2000⟩).2.I3G4250D_Sensitivity = 70 ∧
    (I3G4250D_Init st ⟨a, o, hp, hc, I3G4250D_SCALE_2000_2⟩).2.I3G4250D_Sensitivity = 70 := by
  refine ⟨?_, ?_, ?_, ?_⟩ <;>
    simp [I3G4250D_Init, I3G4250D_SCALE_245, I3G4250D_SCALE_500, I3G4250D_SCALE_2000,
      I3G4250D_SCALE_2000_2, I3G4250D_SENSITIVTY_8_75, I3G4250D_SENSITIVTY_17_50,
      I3G4250D_SENSITIVTY_70]

/-- C6: for every axis, calibrating with `min`, `max` (precondition
`max ≠ min`) sets that axis's bias to `(max + min) / 2` and that axis's
scale to `2000 / (max - min)`; in particular min = -500, max = 500 gives
bias 0 and scale 2. -/
theorem C6_calibrate (st : DriverState) (mn mx : ℚ) (_hne : mx ≠ mn) :
    ((I3G4250D_X_Calibrate st mn mx).X_Bias = (mx + mn) / 2 ∧
      (I3G4250D_X_Calibrate st mn mx).X_Scale = 2000 / (mx - mn)) ∧
    ((I3G4250D_Y_Calibrate st mn mx).Y_Bias = (mx + mn) / 2 ∧
      (I3G4250D_Y_Calibrate st mn mx).Y_Scale = 2000 / (mx - mn)) ∧
    ((I3G4250D_Z_Calibrate st mn mx).Z_Bias = (mx + mn) / 2 ∧
      (I3G4250D_Z_Calibrate st mn mx).Z_Scale = 2000 / (mx - mn)) ∧
    ((I3G4250D_X_Calibrate st (-500) 500).X_Bias = 0 ∧
      (I3G4250D_X_Calibrate st (-500) 500).X_Scale = 2) := by
  refine ⟨⟨?_, ?_⟩, ⟨?_, ?_⟩, ⟨?_, ?_⟩, ⟨?_, ?_⟩⟩ <;>
    norm_num [I3G4250D_X_Calibrate, I3G4250D_Y_Calibrate, I3G4250D_Z_Calibrate]

theorem C6_calibrate_witness :
    (500 : ℚ) ≠ -500 ∧
    (I3G4250D_X_Calibrate initialDriverState (-500) 500).X_Bias = 0 ∧
    (I3G4250D_X_Calibrate initialDriverState (-500) 500).X_Scale = 2 :=
  ⟨by norm_num,
   (C6_calibrate initialDriverState (-500) 500 (by norm_num)).2.2.2.1,
   (C6_calibrate initialDriverState (-500) 500 (by norm_num)).2.2.2.2⟩

/-- C8: a full-scale selection outside the four documented values leaves
the whole driver state — in particular the previously active sensitivity —
unchanged, and no error is raised (the switch simply falls through). -/
theorem C8_init_unknown_fullscale (st : DriverState) (accelerometerInit : I3G4250D_InitTypeDef)
    (h1 : accelerometerInit.FULLSCALE_SELECTION ≠ I3G4250D_SCALE_245)
    (h2 : accelerometerInit.FULLSCALE_SELECTION ≠ I3G4250D_SCALE_500)
    (h3 : accelerometerInit.FULLSCALE_SELECTION ≠ I3G4250D_SCALE_2000)
    (h4 : accelerometerInit.FULLSCALE_SELECTION ≠ I3G4250D_SCALE_2000_2) :
    (I3G4250D_Init st accelerometerInit).2 = st := by
  simp [I3G4250D_Init, h1, h2, h3, h4]

theorem C8_init_unknown_fullscale_witness :
    ((0x41 : Nat) ≠ I3G4250D_SCALE_245 ∧ (0x41 : Nat) ≠ I3G4250D_SCALE_500 ∧
      (0x41 : Nat) ≠ I3G4250D_SCALE_2000 ∧ (0x41 : Nat) ≠ I3G4250D_SCALE_2000_2) ∧
    (I3G4250D_Init initialDriverState ⟨0x0F, 0x10, 0, 0, 0x41⟩).2 = initialDriverState :=
  ⟨⟨by decide, by decide, by decide, by decide⟩,
   C8_init_unknown_fullscale initialDriverState ⟨0x0F, 0x10, 0, 0, 0x41⟩
     (by decide) (by decide) (by decide) (by decide)⟩

/-- C9: for every axis-enable mask and every output-data-rate/bandwidth
preset, the first write `I3G4250D_Init` issues goes to control register 1
and carries exactly the byte `(mask & 0x0F) | (odrBwPreset & 0xF0)`. -/
theorem C9_init_ctrlReg1 (st : DriverState) (accelerometerInit : I3G4250D_InitTypeDef) :
    (I3G4250D_Init st accelerometerInit).1.head? =
      some (I3G4250D_CTRL_REG1,
        (accelerometerInit.ENABLED_AXIS &&& 0x0F) |||
          (accelerometerInit.ODR_BW_PRESET &&& 0xF0)) := by
  simp [I3G4250D_Init]

/-- C10: before any initialisation or configuration call the active
sensitivity already equals 17.50 (the 500-DPS constant) and is in
particular nonzero; scaling in that virgin state (after only an X-axis
calibration over min -500, max 500, which does not touch sensitivity)
multiplies by 17.50: a raw `x` of 100 yields 100 * 17.50 * 2.0 - 0 =
3500.0. -/
theorem C10_initial_sensitivity :
    initialDriverState.I3G4250D_Sensitivity = 17.50 ∧
    initialDriverState.I3G4250D_Sensitivity ≠ 0 ∧
    (I3G4250D_GetScaledData (I3G4250D_X_Calibrate initialDriverState (-500) 500)
      ⟨100, 0, 0⟩).x = 3500 := by
  refine ⟨?_, ?_, ?_⟩ <;>
    norm_num [I3G4250D_GetScaledData, I3G4250D_X_Calibrate, initialDriverState,
      I3G4250D_SENSITIVTY_17_50]

theorem dataReady_loop_exits (status : Nat → Nat) (T0 msTimeOut : Nat)
    (hstatus : ∀ k, status k &&& 0x07 = 0) :
    ∀ fuel n, (∃ j, j ≤ fuel ∧ msTimeOut ≤ elapsedComputed T0 (n + j)) →
      I3G4250D_DataReady_loop status T0 msTimeOut (fuel + 1) n = some false := by
  intro fuel
  induction fuel with
  | zero =>
    intro n h
    obtain ⟨j, hj, hje⟩ := h
    have hj0 : j = 0 := Nat.le_zero.mp hj
    subst hj0
    rw [Nat.add_zero] at hje
    show (if status n &&& 0x07 = 0 ∧ elapsedComputed T0 n < msTimeOut then
        I3G4250D_DataReady_loop status T0 msTimeOut 0 (n + 1)
      else some (status n &&& 0x07 != 0)) = some false
    rw [if_neg (fun hcon => absurd hcon.2 (Nat.not_lt.mpr hje))]
    simp [hstatus n]
  | succ fuel ih =>
    intro n h
    obtain ⟨j, hj, hje⟩ := h
    show (if status n &&& 0x07 = 0 ∧ elapsedComputed T0 n < msTimeOut then
        I3G4250D_DataReady_loop status T0 msTimeOut (fuel + 1) (n + 1)
      else some (status n &&& 0x07 != 0)) = some false
    by_cases hc : elapsedComputed T0 n < msTimeOut
    · rw [if_pos ⟨hstatus n, hc⟩]
      apply ih
      have hj0 : j ≠ 0 := by
        intro h0
        subst h0
        rw [Nat.add_zero] at hje
        omega
      refine ⟨j - 1, by omega, ?_⟩
      have harr : n + 1 + (j - 1) = n + j := by omega
      rw [harr]
      exact hje
    · rw [if_neg (fun hcon => absurd hcon.2 hc)]
      simp [hstatus n]

theorem dataReady_loop_spec (status : Nat → Nat) (T0 msTimeOut : Nat) :
    ∀ fuel n b, I3G4250D_DataReady_loop status T0 msTimeOut fuel n = some b →
      ∃ m, n ≤ m ∧ b = (status m &&& 0x07 != 0) ∧
        (status m &&& 0x07 ≠ 0 ∨ msTimeOut ≤ elapsedComputed T0 m) ∧
        (∀ k, n ≤ k → k < m → status k &&& 0x07 = 0 ∧ elapsedComputed T0 k < msTimeOut) := by
  intro fuel
  induction fuel with
  | zero =>
    intro n b h
    exact absurd h (by simp [I3G4250D_DataReady_loop])
  | succ fuel ih =>
    intro n b h
    rw [show I3G4250D_DataReady_loop status T0 msTimeOut (fuel + 1) n =
      (if status n &&& 0x07 = 0 ∧ elapsedComputed T0 n < msTimeOut then
        I3G4250D_DataReady_loop status T0 msTimeOut fuel (n + 1)
      else some (status n &&& 0x07 != 0)) from rfl] at h
    by_cases hc : status n &&& 0x07 = 0 ∧ elapsedComputed T0 n < msTimeOut
    · rw [if_pos hc] at h
      obtain ⟨m, hm, hb, hexit, hall⟩ := ih (n + 1) b h
      refine ⟨m, by omega, hb, hexit, ?_⟩
      intro k hk1 hk2
      rcases Nat.eq_or_lt_of_le hk1 with heq | hlt
      · subst heq
        exact hc
      · exact hall k (by omega) hk2
    · rw [if_neg hc] at h
      obtain rfl : b = (status n &&& 0x07 != 0) := (Option.some_inj.mp h).symm
      refine ⟨n, Nat.le_refl n, rfl, ?_,
        fun k hk1 hk2 => absurd (Nat.lt_of_le_of_lt hk1 hk2) (Nat.lt_irrefl n)⟩
      rcases Nat.eq_zero_or_pos (status n &&& 0x07) with h0 | hpos
      · rcases Nat.lt_or_ge (elapsedComputed T0 n) msTimeOut with hlt | hge
        · exact absurd ⟨h0, hlt⟩ hc
        · exact Or.inr hge
      · exact Or.inl (by omega)

/-- C3: for every timeout (including 0) and every 32-bit tick-counter
start value, if the status register never sets its low three bits then the
polling loop of `I3G4250D_DataReady` exits by itself within `msTimeOut + 1`
polls — one tick elapsing per poll — and the call returns `false`: no
start position in the counter's range makes it hang.  (The 8-bit
truncation of `startTick` can only overstate the computed elapsed time,
making the exit early, never late.) -/
theorem C3_dataReady_terminates (status : Nat → Nat) (T0 msTimeOut : Nat)
    (hT0 : T0 < tickMod) (ht : msTimeOut < tickMod)
    (hstatus : ∀ k, status k &&& 0x07 = 0) :
    I3G4250D_DataReady status T0 msTimeOut = some false := by
  unfold I3G4250D_DataReady
  apply dataReady_loop_exits status T0 msTimeOut hstatus msTimeOut 0
  unfold tickMod at hT0 ht
  by_cases hc : T0 - T0 % 256 < msTimeOut
  · refine ⟨msTimeOut - (T0 - T0 % 256), by omega, ?_⟩
    unfold elapsedComputed HAL_GetTickAt startTick tickMod
    omega
  · refine ⟨0, Nat.zero_le _, ?_⟩
    unfold elapsedComputed HAL_GetTickAt startTick tickMod
    omega

theorem C3_dataReady_terminates_witness :
    4294967040 < tickMod ∧ 0 < tickMod ∧
    I3G4250D_DataReady (fun _ => 0) 4294967040 0 = some false :=
  ⟨by decide, by decide,
   C3_dataReady_terminates (fun _ => 0) 4294967040 0 (by decide) (by decide)
     (fun _ => Nat.zero_and 7)⟩

/-- C7: whenever `I3G4250D_DataReady` returns, there is a last-polled
index `m` such that the returned value is `true` exactly when the low
three bits of the status byte read at `m` are nonzero, the loop stopped at
`m` because those bits were nonzero or the computed elapsed time reached
the timeout, and every earlier poll saw zero ready bits with the elapsed
time still below the timeout. -/
theorem C7_dataReady_flag (status : Nat → Nat) (T0 msTimeOut : Nat) (b : Bool)
    (hrun : I3G4250D_DataReady status T0 msTimeOut = some b) :
    ∃ m, b = (status m &&& 0x07 != 0) ∧
      (status m &&& 0x07 ≠ 0 ∨ msTimeOut ≤ elapsedComputed T0 m) ∧
      (∀ k, k < m → status k &&& 0x07 = 0 ∧ elapsedComputed T0 k < msTimeOut) := by
  unfold I3G4250D_DataReady at hrun
  obtain ⟨m, hm, hb, hexit, hall⟩ :=
    dataReady_loop_spec status T0 msTimeOut (msTimeOut + 1) 0 b hrun
  exact ⟨m, hb, hexit, fun k hk => hall k (Nat.zero_le k) hk⟩

theorem C7_dataReady_flag_witness :
    I3G4250D_DataReady (fun _ => 1) 0 0 = some true ∧
    ∃ m, (true : Bool) = ((fun _ => (1 : Nat)) m &&& 0x07 != 0) ∧
      ((fun _ => (1 : Nat)) m &&& 0x07 ≠ 0 ∨ (0 : Nat) ≤ elapsedComputed 0 m) ∧
      (∀ k, k < m → (fun _ => (1 : Nat)) k &&& 0x07 = 0 ∧ elapsedComputed 0 k < 0) :=
  ⟨by decide, C7_dataReady_flag (fun _ => 1) 0 0 true (by decide)⟩
